import Mathlib

set_option maxRecDepth 8192

namespace RowStats

/-- An exact decimal number: the value num / 10 ^ exp. Every numeric field the
device emits is a finite decimal literal, so this represents the parsed values
exactly, and integer cross-multiplication gives their exact order. -/
structure Dec where
  num : Int
  exp : Nat
deriving DecidableEq

/-- A natural number as a decimal. -/
def Dec.ofNat (n : Nat) : Dec := { num := n, exp := 0 }

/-- Exact order on decimals by cross-multiplication. -/
def Dec.blt (a b : Dec) : Bool :=
  a.num * ((10 ^ b.exp : Nat) : Int) < b.num * ((10 ^ a.exp : Nat) : Int)

/-- Exact difference of two decimals over the common power-of-ten denominator. -/
def Dec.sub (a b : Dec) : Dec :=
  { num := a.num * ((10 ^ b.exp : Nat) : Int) - b.num * ((10 ^ a.exp : Nat) : Int)
    exp := a.exp + b.exp }

/-- The rational value a decimal denotes. -/
def Dec.toRat (d : Dec) : Rat := (d.num : Rat) / ((10 : Rat) ^ d.exp)

/-- One cell of a parsed table: missing (pandas NaN), a string, or a number. -/
inductive Cell where
  | na : Cell
  | str : String → Cell
  | num : Dec → Cell
deriving DecidableEq

/-- The Python exception kinds the core pipeline can raise or catch. -/
inductive PyErr where
  | typeError : PyErr
  | valueError : PyErr
  | keyError : PyErr
deriving DecidableEq

/-- Numeric value of a decimal digit character. -/
def digit (c : Char) : Nat := c.toNat - '0'.toNat

/-- Greedily read one or two leading decimal digits, as the numeric strptime
directives %H, %M, %S do. -/
def digits2 : List Char → Option (Nat × List Char)
  | [] => none
  | [c] => if c.isDigit then some (digit c, []) else none
  | c1 :: c2 :: rest =>
    if c1.isDigit then
      if c2.isDigit then some (digit c1 * 10 + digit c2, rest)
      else some (digit c1, c2 :: rest)
    else none

/-- Model of datetime.strptime with format %H:%M:%S.%f, returning the minute field.
The whole string must be consumed; hour is 0-23, minute 0-59, second 0-61, and the
fractional part is one to six digits. Returns none where strptime raises ValueError. -/
def strptimeMinute (s : String) : Option Nat :=
  match digits2 s.toList with
  | none => none
  | some (h, r1) =>
    match r1 with
    | ':' :: r2 =>
      match digits2 r2 with
      | none => none
      | some (m, r3) =>
        match r3 with
        | ':' :: r4 =>
          match digits2 r4 with
          | none => none
          | some (sec, r5) =>
            match r5 with
            | '.' :: fr =>
              if h ≤ 23 && m ≤ 59 && sec ≤ 61 && decide (1 ≤ fr.length) &&
                  decide (fr.length ≤ 6) && fr.all Char.isDigit
              then some m else none
            | _ => none
        | _ => none
    | _ => none

/-- Reading the minute of the time cell of one row, as main.py line 75 does.
A missing column raises KeyError; a non-string cell (NaN or a number) makes
strptime raise TypeError; an unparsable string raises ValueError. -/
def minuteOf : Option Cell → Except PyErr Nat
  | none => Except.error PyErr.keyError
  | some Cell.na => Except.error PyErr.typeError
  | some (Cell.num _) => Except.error PyErr.typeError
  | some (Cell.str s) =>
    match strptimeMinute s with
    | some m => Except.ok m
    | none => Except.error PyErr.valueError

/-- The scanner state threaded across the rows of one session
(main.py lines 68-70). -/
structure SegState where
  is_up : Bool
  pending_transition : Bool
  elements_since_transition : Nat
deriving DecidableEq

/-- Initial scanner state of each session (main.py lines 68-70). -/
def segInit : SegState :=
  { is_up := true, pending_transition := true, elements_since_transition := 0 }

/-- The transition-detection block of the scan (main.py lines 81-87). -/
def transitionStep (st : SegState) (minute : Nat) : SegState :=
  if decide (minute > 12) && !st.pending_transition then
    { st with pending_transition := true }
  else if decide (minute ≤ 12) && st.pending_transition then
    { is_up := if st.elements_since_transition ≥ 8 then !st.is_up else st.is_up,
      pending_transition := false,
      elements_since_transition := 0 }
  else st

/-- The labeling block of the scan (main.py lines 89-93). -/
def labelStep (st : SegState) : SegState × String :=
  if st.pending_transition then (st, "turning")
  else ({ st with elements_since_transition := st.elements_since_transition + 1 },
        if st.is_up then "up" else "down")

/-- The per-session scan over the time cells (main.py lines 73-93). A ValueError or
KeyError from a row is absorbed by labeling the row turning and continuing with the
state unchanged; a TypeError is not caught by the handler at line 76 and aborts. -/
def segment (st : SegState) : List (Option Cell) → Except PyErr (List String)
  | [] => Except.ok []
  | c :: rest =>
    match minuteOf c with
    | Except.error PyErr.typeError => Except.error PyErr.typeError
    | Except.error _ =>
      match segment st rest with
      | Except.error e => Except.error e
      | Except.ok ds => Except.ok ("turning" :: ds)
    | Except.ok m =>
      let st1 := transitionStep st m
      match segment (labelStep st1).1 rest with
      | Except.error e => Except.error e
      | Except.ok ds => Except.ok ((labelStep st1).2 :: ds)

/-- A time cell whose minute component is 5 (below the rollover threshold). -/
def lowCell : Option Cell := some (Cell.str "00:05:30.000000")

/-- A time cell whose minute component is 13 (above the rollover threshold). -/
def highCell : Option Cell := some (Cell.str "00:13:30.000000")

/-- A session whose rollover arrives after only five confirmed-leg rows. -/
def fiveRunSession : List (Option Cell) :=
  [lowCell, lowCell, lowCell, lowCell, lowCell, highCell, highCell, lowCell]

/-- A session whose rollover arrives after nine confirmed-leg rows. -/
def nineRunSession : List (Option Cell) :=
  [lowCell, lowCell, lowCell, lowCell, lowCell, lowCell, lowCell, lowCell, lowCell,
   highCell, highCell, lowCell]

/-- One row of the DataFrame produced by split_frames: the raw time cell, the two
numeric columns after the to_numeric coercion of lines 101-102, the dir column of
line 96, and all remaining columns untouched by the pipeline. -/
structure SRow where
  splitGps : Option Cell
  distanceGps : Option Dec
  strokeRate : Option Dec
  dir : String
  extra : List (String × Cell)
deriving DecidableEq

/-- The assignment df.loc[mask, ['Distance (GPS)', 'Stroke Rate']] = np.nan
performed on one masked row. -/
def nullRow (r : SRow) : SRow := { r with distanceGps := none, strokeRate := none }

/-- The mask entry df['Distance (GPS)'].diff() > 100 for one row: a NaN on either
side of the difference compares as False. -/
def diffGt100 (prev cur : Option Dec) : Bool :=
  match prev, cur with
  | some p, some c => Dec.blt (Dec.ofNat 100) (Dec.sub c p)
  | _, _ => false

/-- The first .loc statement of main.py line 105: the mask is computed from the
distances as they stand before the assignment, then every masked row is nulled. -/
def applyDiffMask : Option Dec → List SRow → List SRow
  | _, [] => []
  | prev, r :: rs =>
    (if diffGt100 prev r.distanceGps then nullRow r else r) ::
      applyDiffMask r.distanceGps rs

/-- The .loc statement of main.py line 106 on one row: null both numeric fields
where the stroke rate is below 10 (NaN compares as False). -/
def nullIfLow (r : SRow) : SRow :=
  match r.strokeRate with
  | some q => if Dec.blt q (Dec.ofNat 10) then nullRow r else r
  | none => r

/-- The .loc statement of main.py line 107 on one row: null both numeric fields
where the stroke rate is above 34 (NaN compares as False). -/
def nullIfHigh (r : SRow) : SRow :=
  match r.strokeRate with
  | some q => if Dec.blt (Dec.ofNat 34) q then nullRow r else r
  | none => r

/-- The two stroke-rate bound statements of main.py lines 106-107, in order. -/
def rateRules (rs : List SRow) : List SRow := (rs.map nullIfLow).map nullIfHigh

/-- The numeric-sanitizing statements of main.py lines 105-107, in order. -/
def sanitize (rs : List SRow) : List SRow := rateRules (applyDiffMask none rs)

/-- Value of a nonempty all-digit character run; none otherwise. -/
def digitsVal (cs : List Char) : Option Nat :=
  if cs.isEmpty then none
  else if cs.all Char.isDigit then
    some (cs.foldl (fun acc c => acc * 10 + digit c) 0)
  else none

/-- Split a character list at its first dot, keeping the remainder raw. -/
def splitDot : List Char → List Char × Option (List Char)
  | [] => ([], none)
  | '.' :: rest => ([], some rest)
  | c :: rest => (c :: (splitDot rest).1, (splitDot rest).2)

/-- Drop spaces and tabs from both ends of a character list. -/
def trimChars (cs : List Char) : List Char :=
  ((cs.dropWhile fun c => c = ' ' || c = '\t').reverse.dropWhile
      fun c => c = ' ' || c = '\t').reverse

/-- Model of the numeric coercion used by pd.to_numeric and by the read_csv dtype
inference on one string: an optional sign followed by a plain decimal literal,
ignoring surrounding whitespace; anything else is not numeric. -/
def parseDec (s : String) : Option Dec :=
  let cs := trimChars s.toList
  let signed : Int × List Char :=
    match cs with
    | '-' :: rest => (-1, rest)
    | '+' :: rest => (1, rest)
    | _ => (1, cs)
  match splitDot signed.2 with
  | (ip, none) =>
    match digitsVal ip with
    | some n => some { num := signed.1 * n, exp := 0 }
    | none => none
  | (ip, some fp) =>
    if ip.isEmpty && fp.isEmpty then none
    else if ip.isEmpty then
      match digitsVal fp with
      | some f => some { num := signed.1 * f, exp := fp.length }
      | none => none
    else if fp.isEmpty then
      match digitsVal ip with
      | some n => some { num := signed.1 * n, exp := 0 }
      | none => none
    else
      match digitsVal ip, digitsVal fp with
      | some n, some f =>
        some { num := signed.1 * (n * ((10 ^ fp.length : Nat) : Int) + f)
               exp := fp.length }
      | _, _ => none

/-- A parsed DataFrame: named columns and rows of cells aligned with them. -/
structure Table where
  columns : List String
  rows : List (List Cell)
deriving DecidableEq

/-- Reading one named cell of a row, as df indexing by column name does: none
models the KeyError of an absent column. -/
def colCell (cols : List String) (cells : List Cell) (name : String) : Option Cell :=
  match cols.findIdx? (fun c => c = name) with
  | some i => some (cells.getD i Cell.na)
  | none => none

/-- The three columns the pipeline reads and rewrites by name. -/
def coreColumns : List String := ["Split (GPS)", "Distance (GPS)", "Stroke Rate"]

/-- The columns of a row that split_frames passes through untouched. -/
def extraOf (cols : List String) (cells : List Cell) : List (String × Cell) :=
  (cols.zip cells).filter fun p => !coreColumns.contains p.1

/-- The pd.to_numeric coercion of main.py lines 101-102 on one cell: numbers stay,
parseable strings convert, anything else becomes NaN. -/
def cellToNum : Option Cell → Option Dec
  | none => none
  | some Cell.na => none
  | some (Cell.num q) => some q
  | some (Cell.str s) => parseDec s

/-- One surviving row of split_frames before sanitizing: the core cells read by
name, coerced to numbers, with the dir label attached. -/
def mkSRow (cols : List String) (cells : List Cell) (d : String) : SRow :=
  { splitGps := colCell cols cells "Split (GPS)"
    distanceGps := cellToNum (colCell cols cells "Distance (GPS)")
    strokeRate := cellToNum (colCell cols cells "Stroke Rate")
    dir := d
    extra := extraOf cols cells }

/-- The split_frames function of main.py lines 53-109: scan directions over the
time column, filter out turning rows, coerce the two numeric columns (a missing
numeric column raises KeyError at line 101), and run the three .loc statements. -/
def split_frames (t : Table) : Except PyErr (List SRow) :=
  match segment segInit (t.rows.map fun cs => colCell t.columns cs "Split (GPS)") with
  | Except.error e => Except.error e
  | Except.ok dirs =>
    if t.columns.contains "Distance (GPS)" && t.columns.contains "Stroke Rate" then
      Except.ok (sanitize (((t.rows.zip dirs).filter fun p => p.2 != "turning").map
        fun p => mkSRow t.columns p.1 p.2))
    else Except.error PyErr.keyError

/-- Split a character list at the first occurrence of a separator run, giving the
part before it and the raw remainder after it; none when the separator is absent.
This is Python substring search plus content.split(marker, 1). -/
def breakOnAux (sep : List Char) : List Char → Option (List Char × List Char)
  | [] => none
  | c :: rest =>
    if sep.isPrefixOf (c :: rest) then some ([], (c :: rest).drop sep.length)
    else
      match breakOnAux sep rest with
      | none => none
      | some (pre, post) => some (c :: pre, post)

/-- Split a character list on every occurrence of a separator character. -/
def splitCharAux (sep : Char) (acc : List Char) : List Char → List (List Char)
  | [] => [acc.reverse]
  | c :: rest =>
    if c = sep then acc.reverse :: splitCharAux sep [] rest
    else splitCharAux sep (c :: acc) rest

/-- Split a string on a separator character, keeping empty segments. -/
def splitChar (sep : Char) (s : String) : List String :=
  (splitCharAux sep [] s.toList).map fun l => String.mk l

/-- The non-blank lines of a text, as read_csv with default skip_blank_lines. -/
def csvLines (s : String) : List String :=
  (splitChar '\n' s).filter fun l => l != ""

/-- Pad or cut a field list to the header width; pandas fills short rows with NaN. -/
def padTo (n : Nat) (xs : List String) : List String :=
  xs.take n ++ List.replicate (n - xs.length) ""

/-- Whether a whole column reads as numeric: pandas converts a column to a number
dtype when every nonempty field of it parses as a number and one such field exists. -/
def colIsNumeric (grid : List (List String)) (j : Nat) : Bool :=
  let vals := (grid.map fun r => r.getD j "").filter fun v => v != ""
  !vals.isEmpty && vals.all fun v => (parseDec v).isSome

/-- One cell under a column dtype: empty fields are NaN, fields of a numeric
column are numbers, fields of an object column are strings. -/
def inferCell (numeric : Bool) (raw : String) : Cell :=
  if raw = "" then Cell.na
  else if numeric then Cell.num ((parseDec raw).getD (Dec.ofNat 0))
  else Cell.str raw

/-- Model of pd.read_csv on the text after the marker: first non-blank line is the
header, remaining lines are rows padded to the header width, with per-column
dtype inference. -/
def read_csv (s : String) : Table :=
  match csvLines s with
  | [] => { columns := [], rows := [] }
  | header :: rest =>
    let cols := splitChar ',' header
    let grid := rest.map fun line => padTo cols.length (splitChar ',' line)
    let flags := (List.range cols.length).map (colIsNumeric grid)
    { columns := cols
      rows := grid.map fun r => (r.zip flags).map fun p => inferCell p.2 p.1 }

/-- The section marker of main.py line 37. -/
def marker : String := "Per-Stroke Data:\n"

/-- The membership test of main.py line 38. -/
def hasMarker (content : String) : Bool :=
  (breakOnAux marker.toList content.toList).isSome

/-- The text after the first marker occurrence, main.py line 41. -/
def afterMarker (content : String) : String :=
  match breakOnAux marker.toList content.toList with
  | some p => String.mk p.2
  | none => ""

/-- The columns dropped unconditionally by main.py line 45. -/
def dropped_columns : List String :=
  ["Power", "Catch", "Slip", "Finish", "Wash", "Work", "Distance (IMP)",
   "Split (IMP)", "Speed (IMP)", "Distance/Stroke (IMP)", "Heart Rate",
   "Force Avg", "Force Max", "Max Force Angle", "GPS Lat.", "GPS Lon."]

/-- Removing the dropped columns from a table, cells included. -/
def dropCols (t : Table) : Table :=
  { columns := t.columns.filter fun c => !dropped_columns.contains c
    rows := t.rows.map fun cs =>
      ((t.columns.zip cs).filter fun p => !dropped_columns.contains p.1).map
        Prod.snd }

/-- The get_table function of main.py lines 18-50: require the marker, parse the
text after it, and drop the fixed column list; df.drop raises KeyError when any
listed column is absent. -/
def get_table (content : String) : Except PyErr Table :=
  if hasMarker content then
    if dropped_columns.all
        (fun c => (read_csv (afterMarker content)).columns.contains c) then
      Except.ok (dropCols (read_csv (afterMarker content)))
    else Except.error PyErr.keyError
  else Except.error PyErr.valueError

/-- One input file: its path and its raw text. -/
structure RawFile where
  name : String
  content : String
deriving DecidableEq

/-- A row of the joined dataset, carrying the file_name column added by
main.py line 131. -/
structure JRow extends SRow where
  file_name : String
deriving DecidableEq

/-- Model of os.path.basename: the part of a path after its last slash. -/
def basename (p : String) : String := (splitChar '/' p).getLastD ""

/-- The per-file pipeline of main.py lines 127-131: extract the table, discard the
first data row, run split_frames, and tag every surviving row with the file name. -/
def processFile (f : RawFile) : Except PyErr (List JRow) :=
  match get_table f.content with
  | Except.error e => Except.error e
  | Except.ok t =>
    match split_frames { t with rows := t.rows.drop 1 } with
    | Except.error e => Except.error e
    | Except.ok srows =>
      Except.ok (srows.map fun r => { toSRow := r, file_name := basename f.name })

/-- The create_joined_dataset function of main.py lines 112-140: a failing file is
skipped, an empty batch of successes raises ValueError, and the successes are
concatenated in input order. -/
def create_joined_dataset (files : List RawFile) : Except PyErr (List JRow) :=
  if (files.filterMap fun f => (processFile f).toOption).isEmpty then
    Except.error PyErr.valueError
  else Except.ok (files.filterMap fun f => (processFile f).toOption).flatten

/-- The header line of a well-formed sample file, holding the three core columns
and every column of the fixed drop list. -/
def goodHeader : String :=
  "Split (GPS),Distance (GPS),Stroke Rate,Power,Catch,Slip,Finish,Wash,Work," ++
  "Distance (IMP),Split (IMP),Speed (IMP),Distance/Stroke (IMP),Heart Rate," ++
  "Force Avg,Force Max,Max Force Angle,GPS Lat.,GPS Lon."

/-- The units row emitted by the device as the first data row. -/
def unitsRow : String :=
  "(HH:MM:SS.FFF),(Meters),(SPM),(Watts),(Degrees),(Degrees),(Degrees)," ++
  "(Degrees),(Joules),(Meters),(HH:MM:SS.FFF),(MPH),(Meters),(BPM)," ++
  "(Newtons),(Newtons),(Degrees),(Degrees),(Degrees)"

/-- A stroke row at minute 5, distance 100, rate 20. -/
def goodData1 : String :=
  "00:05:30.000000,100,20,150,30,10,40,5,500,328,00:05:45.000000,6.2,9.5," ++
  "140,200,400,33,52.1,13.4"

/-- A stroke row at minute 5, distance 110, rate 22. -/
def goodData2 : String :=
  "00:05:31.000000,110,22,151,30,10,40,5,500,361,00:05:46.000000,6.2,9.5," ++
  "140,200,400,33,52.1,13.4"

/-- A complete well-formed session file with two confirmed strokes. -/
def demoGoodFile : RawFile :=
  { name := "csv-samples/good.csv"
    content := "Session Information:\nTotal Distance,12000\n\nPer-Stroke Data:\n" ++
      goodHeader ++ "\n" ++ unitsRow ++ "\n" ++ goodData1 ++ "\n" ++ goodData2 ++ "\n" }

/-- A file lacking the per-stroke marker line entirely. -/
def noMarkerFile : RawFile :=
  { name := "csv-samples/broken.csv"
    content := "Session Information:\nThis file has no per-stroke section\n" }

/-- A stroke row whose Split (GPS) field is empty, read by pandas as NaN. -/
def naData : String :=
  ",105,21,150,30,10,40,5,500,344,00:05:47.000000,6.2,9.5," ++
  "140,200,400,33,52.1,13.4"

/-- A well-formed file whose single stroke row has an empty time field. -/
def naFile : RawFile :=
  { name := "csv-samples/na.csv"
    content := "Session Information:\nJunk,1\nPer-Stroke Data:\n" ++
      goodHeader ++ "\n" ++ unitsRow ++ "\n" ++ naData ++ "\n" }

/-- A stroke row at minute 13: still inside the initial suspected turn. -/
def turningData : String :=
  "00:13:30.000000,100,20,150,30,10,40,5,500,328,00:13:45.000000,6.2,9.5," ++
  "140,200,400,33,52.1,13.4"

/-- A well-formed file all of whose rows are labeled turning and dropped. -/
def allTurningFile : RawFile :=
  { name := "csv-samples/turning.csv"
    content := "Session Information:\nJunk,1\nPer-Stroke Data:\n" ++
      goodHeader ++ "\n" ++ unitsRow ++ "\n" ++ turningData ++ "\n" ++
      turningData ++ "\n" }

/-- A header holding the core columns and all dropped columns except Power. -/
def noPowerHeader : String :=
  "Split (GPS),Distance (GPS),Stroke Rate,Catch,Slip,Finish,Wash,Work," ++
  "Distance (IMP),Split (IMP),Speed (IMP),Distance/Stroke (IMP),Heart Rate," ++
  "Force Avg,Force Max,Max Force Angle,GPS Lat.,GPS Lon."

/-- A file with the marker and all core columns but no Power column. -/
def noPowerFile : RawFile :=
  { name := "csv-samples/nopower.csv"
    content := "Session Information:\nJunk,1\nPer-Stroke Data:\n" ++
      noPowerHeader ++ "\n" ++ unitsRow ++ "\n" ++ goodData1 ++ "\n" }

/-- The first surviving row of the good sample file after the full pipeline. -/
def goodRow1 : JRow :=
  { splitGps := some (Cell.str "00:05:30.000000")
    distanceGps := some (Dec.ofNat 100)
    strokeRate := some (Dec.ofNat 20)
    dir := "up"
    extra := []
    file_name := "good.csv" }

/-- The second surviving row of the good sample file after the full pipeline. -/
def goodRow2 : JRow :=
  { splitGps := some (Cell.str "00:05:31.000000")
    distanceGps := some (Dec.ofNat 110)
    strokeRate := some (Dec.ofNat 22)
    dir := "up"
    extra := []
    file_name := "good.csv" }

/-- The fields of a row the Sanitizer never writes: time cell, label, passthrough. -/
def stripNum (r : SRow) : Option Cell × String × List (String × Cell) :=
  (r.splitGps, r.dir, r.extra)

/-- The row content the Segmenter and Sanitizer pass through unchanged. -/
def keyS (r : SRow) : Option Cell × List (String × Cell) := (r.splitGps, r.extra)

/-- The row content the whole per-file pipeline passes through unchanged. -/
def keyJ (r : JRow) : Option Cell × List (String × Cell) := (r.splitGps, r.extra)

/-- The same passthrough content read off an unprocessed table row. -/
def keyT (cols : List String) (cells : List Cell) :
    Option Cell × List (String × Cell) :=
  (colCell cols cells "Split (GPS)", extraOf cols cells)

/-- No first difference of present consecutive distances exceeds 100. -/
def noJumps : Option Dec → List SRow → Bool
  | _, [] => true
  | p, r :: rs => !diffGt100 p r.distanceGps && noJumps r.distanceGps rs

/-- Every present stroke rate lies within the plausible band [10, 34]. -/
def ratesInRange (rs : List SRow) : Bool :=
  rs.all fun r =>
    match r.strokeRate with
    | some q => !Dec.blt q (Dec.ofNat 10) && !Dec.blt (Dec.ofNat 34) q
    | none => true

/-- A sanitizer-input row at a given integer distance, stroke rate 20. -/
def jumpRow (d : Nat) : SRow :=
  { splitGps := none, distanceGps := some (Dec.ofNat d)
    strokeRate := some (Dec.ofNat 20), dir := "up", extra := [] }

/-- The outlier-suppression example: distances 0, 10, 20, 500, 30. -/
def jumpDemo : List SRow :=
  [jumpRow 0, jumpRow 10, jumpRow 20, jumpRow 500, jumpRow 30]

/-- A sanitizer-input row at distance 50 with a given integer stroke rate. -/
def rateRow (q : Nat) : SRow :=
  { splitGps := none, distanceGps := some (Dec.ofNat 50)
    strokeRate := some (Dec.ofNat q), dir := "up", extra := [] }

/-- The bounds-suppression example: stroke rates 9, 35, 10, 34. -/
def rateDemo : List SRow := [rateRow 9, rateRow 35, rateRow 10, rateRow 34]


theorem Dec.toRat_pos_den (e : Nat) : (0 : Rat) < (10 : Rat) ^ e := by positivity

/-- The boolean decimal order agrees with the rational order of denoted values. -/
theorem Dec.blt_iff (a b : Dec) : Dec.blt a b = true ↔ a.toRat < b.toRat := by
  unfold Dec.blt Dec.toRat
  rw [div_lt_div_iff₀ (Dec.toRat_pos_den a.exp) (Dec.toRat_pos_den b.exp)]
  rw [decide_eq_true_eq]
  constructor
  · intro h; exact_mod_cast h
  · intro h; exact_mod_cast h

/-- Decimal subtraction denotes rational subtraction. -/
theorem Dec.toRat_sub (a b : Dec) : (Dec.sub a b).toRat = a.toRat - b.toRat := by
  unfold Dec.sub Dec.toRat
  have ha := Dec.toRat_pos_den a.exp
  have hb := Dec.toRat_pos_den b.exp
  field_simp
  ring

/-- A natural-number decimal denotes that natural number. -/
theorem Dec.toRat_ofNat (n : Nat) : (Dec.ofNat n).toRat = (n : Rat) := by
  unfold Dec.ofNat Dec.toRat
  simp

/-- The diff mask fires exactly where both distances are present and the jump
denotes a rational difference above 100. -/
theorem diffGt100_iff (p c : Dec) :
    diffGt100 (some p) (some c) = true ↔ c.toRat - p.toRat > 100 := by
  unfold diffGt100
  rw [Dec.blt_iff, Dec.toRat_sub, Dec.toRat_ofNat]
  constructor
  · intro h; exact h
  · intro h; exact h

theorem stripNum_nullRow (r : SRow) : stripNum (nullRow r) = stripNum r := rfl

theorem applyDiffMask_strip (p : Option Dec) (rs : List SRow) :
    (applyDiffMask p rs).map stripNum = rs.map stripNum := by
  induction rs generalizing p with
  | nil => rfl
  | cons r tl ih =>
    simp only [applyDiffMask, List.map_cons, ih]
    cases diffGt100 p r.distanceGps <;> simp [stripNum_nullRow]

theorem nullIfLow_strip (r : SRow) : stripNum (nullIfLow r) = stripNum r := by
  unfold nullIfLow
  cases r.strokeRate with
  | none => rfl
  | some q => by_cases h : Dec.blt q (Dec.ofNat 10) = true <;> simp [h, stripNum_nullRow]

theorem nullIfHigh_strip (r : SRow) : stripNum (nullIfHigh r) = stripNum r := by
  unfold nullIfHigh
  cases r.strokeRate with
  | none => rfl
  | some q => by_cases h : Dec.blt (Dec.ofNat 34) q = true <;> simp [h, stripNum_nullRow]

/-- The Sanitizer rewrites only the two numeric fields of each row. -/
theorem sanitize_strip (rs : List SRow) :
    (sanitize rs).map stripNum = rs.map stripNum := by
  unfold sanitize rateRules
  rw [List.map_map, List.map_map]
  have h1 : (stripNum ∘ nullIfHigh) ∘ nullIfLow = stripNum := by
    funext r
    simp [Function.comp, nullIfHigh_strip, nullIfLow_strip]
  rw [h1]
  exact applyDiffMask_strip none rs

/-- The Sanitizer never adds or removes a row. -/
theorem sanitize_length (rs : List SRow) : (sanitize rs).length = rs.length := by
  have h := congrArg List.length (sanitize_strip rs)
  simpa using h

/-- C4: the gap rule of the Sanitizer nulls both numeric fields exactly on the rows
whose first distance difference from the preceding row exceeds 100, pairing every
row with the distance that precedes it as it stood before any nulling; on the
distance sequence 0, 10, 20, 500, 30 only the row at 500 is nulled and its
neighbors are untouched. -/
theorem diff_rule_exact :
    (∀ (p : Option Dec) (rs : List SRow),
        applyDiffMask p rs =
          (rs.zip (p :: rs.map fun r => r.distanceGps)).map fun q =>
            if diffGt100 q.2 q.1.distanceGps then nullRow q.1 else q.1)
    ∧ sanitize jumpDemo =
        [jumpRow 0, jumpRow 10, jumpRow 20, nullRow (jumpRow 500), jumpRow 30] := by
  constructor
  · intro p rs
    induction rs generalizing p with
    | nil => rfl
    | cons r tl ih => simp [applyDiffMask, ih]
  · decide

theorem rate_rules_elem (r : SRow) :
    nullIfHigh (nullIfLow r) =
      (match r.strokeRate with
       | some q =>
         if Dec.blt q (Dec.ofNat 10) || Dec.blt (Dec.ofNat 34) q then nullRow r else r
       | none => r) := by
  cases hq : r.strokeRate with
  | none => simp [nullIfLow, nullIfHigh, hq]
  | some q =>
    by_cases hlow : Dec.blt q (Dec.ofNat 10) = true
    · simp [nullIfLow, nullIfHigh, hq, hlow, nullRow]
    · by_cases hhigh : Dec.blt (Dec.ofNat 34) q = true <;>
        simp [nullIfLow, nullIfHigh, hq, hlow, hhigh]

/-- C5: the bound rules of the Sanitizer null both numeric fields exactly on the
rows whose present stroke rate is strictly below 10 or strictly above 34; the
Sanitizer never removes a row and never writes any other field; on stroke rates
9, 35, 10, 34 the first two rows are nulled and the last two keep their values. -/
theorem rate_rule_exact :
    (∀ rs : List SRow,
        rateRules rs = rs.map fun r =>
          match r.strokeRate with
          | some q =>
            if Dec.blt q (Dec.ofNat 10) || Dec.blt (Dec.ofNat 34) q then nullRow r
            else r
          | none => r)
    ∧ (∀ rs : List SRow, (sanitize rs).length = rs.length)
    ∧ (∀ rs : List SRow, (sanitize rs).map stripNum = rs.map stripNum)
    ∧ sanitize rateDemo =
        [nullRow (rateRow 9), nullRow (rateRow 35), rateRow 10, rateRow 34] := by
  refine ⟨?_, sanitize_length, sanitize_strip, by decide⟩
  intro rs
  unfold rateRules
  rw [List.map_map]
  exact List.map_congr_left fun r _ => rate_rules_elem r

theorem applyDiffMask_of_noJumps (p : Option Dec) (rs : List SRow)
    (h : noJumps p rs = true) : applyDiffMask p rs = rs := by
  induction rs generalizing p with
  | nil => rfl
  | cons r tl ih =>
    rw [noJumps, Bool.and_eq_true] at h
    rw [applyDiffMask, ih r.distanceGps h.2]
    have hf : diffGt100 p r.distanceGps = false := by
      cases hd : diffGt100 p r.distanceGps
      · rfl
      · rw [hd] at h; simp at h
    rw [hf]
    simp

/-- C7: the Sanitizer is a no-op on a session that is already sanitized: no first
distance difference exceeds 100 and every present stroke rate lies in [10, 34]. -/
theorem sanitizer_idempotent (rs : List SRow)
    (h1 : noJumps none rs = true) (h2 : ratesInRange rs = true) :
    sanitize rs = rs := by
  unfold sanitize
  rw [applyDiffMask_of_noJumps none rs h1]
  unfold rateRules
  rw [List.map_map]
  unfold ratesInRange at h2
  rw [List.all_eq_true] at h2
  have hid : ∀ r ∈ rs, (nullIfHigh ∘ nullIfLow) r = id r := by
    intro r hr
    have hb := h2 r hr
    cases hq : r.strokeRate with
    | none => simp [Function.comp, nullIfLow, nullIfHigh, hq]
    | some q =>
      rw [hq, Bool.and_eq_true] at hb
      have hl : Dec.blt q (Dec.ofNat 10) = false := by
        cases hx : Dec.blt q (Dec.ofNat 10)
        · rfl
        · rw [hx] at hb; simp at hb
      have hh : Dec.blt (Dec.ofNat 34) q = false := by
        cases hx : Dec.blt (Dec.ofNat 34) q
        · rfl
        · rw [hx] at hb; simp at hb
      simp [Function.comp, nullIfLow, nullIfHigh, hq, hl, hh]
  rw [List.map_congr_left hid]
  simp

/-- Witness for C7 at a concrete already-sanitized session. -/
theorem sanitizer_idempotent_witness :
    noJumps none [rateRow 10, rateRow 34] = true
    ∧ ratesInRange [rateRow 10, rateRow 34] = true
    ∧ sanitize [rateRow 10, rateRow 34] = [rateRow 10, rateRow 34] :=
  ⟨by decide, by decide, sanitizer_idempotent _ (by decide) (by decide)⟩

/-- C1: when a suspected turn closes (a row's minute is at most 12 while a
transition is pending), the confirmed leg flips exactly when at least 8 confirmed
rows accumulated since the last transition, and in either case the counter resets
to 0 and the pending flag clears; a rollover answered after only 5 confirmed rows
leaves the last row labeled up, while after 9 confirmed rows it flips to down. -/
theorem direction_flip_rule :
    (∀ (st : SegState) (m : Nat), m ≤ 12 → st.pending_transition = true →
        transitionStep st m =
          { is_up := if st.elements_since_transition ≥ 8 then !st.is_up else st.is_up
            pending_transition := false
            elements_since_transition := 0 })
    ∧ segment segInit fiveRunSession =
        Except.ok ["up", "up", "up", "up", "up", "turning", "turning", "up"]
    ∧ segment segInit nineRunSession =
        Except.ok ["up", "up", "up", "up", "up", "up", "up", "up", "up",
                   "turning", "turning", "down"] := by
  refine ⟨?_, by rfl, by rfl⟩
  intro st m hm hp
  unfold transitionStep
  rw [hp]
  have h1 : decide (m > 12) = false := by
    rw [decide_eq_false_iff_not]
    omega
  have h2 : decide (m ≤ 12) = true := decide_eq_true hm
  rw [h1, h2]
  simp

/-- Witness for C1 at a closing row with nine accumulated confirmed rows. -/
theorem direction_flip_rule_witness :
    transitionStep
        { is_up := true, pending_transition := true, elements_since_transition := 9 }
        5 =
      { is_up := false, pending_transition := false,
        elements_since_transition := 0 } := by
  have h := direction_flip_rule.1
    { is_up := true, pending_transition := true, elements_since_transition := 9 } 5
    (by decide) rfl
  simpa using h

theorem labelStep_snd (st : SegState) :
    (labelStep st).2 = "turning" ∨ (labelStep st).2 = "up" ∨ (labelStep st).2 = "down" := by
  unfold labelStep
  rcases st with ⟨u, p, n⟩
  cases p <;> cases u <;> simp

/-- A successful scan emits one label per row, every label being turning, up or
down. -/
theorem segment_ok_elim (l : List (Option Cell)) (st : SegState) (ds : List String)
    (h : segment st l = Except.ok ds) :
    ds.length = l.length ∧ ∀ d ∈ ds, d = "turning" ∨ d = "up" ∨ d = "down" := by
  induction l generalizing st ds with
  | nil =>
    rw [segment] at h
    cases h
    simp
  | cons c rest ih =>
    rw [segment] at h
    cases hm : minuteOf c with
    | error e =>
      rw [hm] at h
      cases e with
      | typeError => simp at h
      | valueError =>
        cases hrec : segment st rest with
        | error e2 => rw [hrec] at h; simp at h
        | ok ds2 =>
          rw [hrec] at h
          simp at h
          obtain ⟨ihl, ihm⟩ := ih st ds2 hrec
          subst h
          constructor
          · simp [ihl]
          · intro d hd
            rcases List.mem_cons.mp hd with h1 | h1
            · exact Or.inl h1
            · exact ihm d h1
      | keyError =>
        cases hrec : segment st rest with
        | error e2 => rw [hrec] at h; simp at h
        | ok ds2 =>
          rw [hrec] at h
          simp at h
          obtain ⟨ihl, ihm⟩ := ih st ds2 hrec
          subst h
          constructor
          · simp [ihl]
          · intro d hd
            rcases List.mem_cons.mp hd with h1 | h1
            · exact Or.inl h1
            · exact ihm d h1
    | ok m =>
      rw [hm] at h
      simp only at h
      cases hrec : segment (labelStep (transitionStep st m)).1 rest with
      | error e2 => rw [hrec] at h; simp at h
      | ok ds2 =>
        rw [hrec] at h
        simp at h
        obtain ⟨ihl, ihm⟩ := ih _ ds2 hrec
        subst h
        constructor
        · simp [ihl]
        · intro d hd
          rcases List.mem_cons.mp hd with h1 | h1
          · rw [h1]; exact labelStep_snd _
          · exact ihm d h1

/-- C3 (code bug): a row whose time cell is missing (pandas NaN) or numeric makes
strptime raise a TypeError at line 75, which the except clause for ValueError and
KeyError does not catch, so the scan aborts and the whole file is skipped; only an
unparsable string (ValueError) or an absent column (KeyError) is absorbed by
labeling the row turning with the state unchanged and the scan continuing. -/
theorem missing_time_cell_aborts_scan :
    processFile naFile = Except.error PyErr.typeError
    ∧ segment segInit [some Cell.na] = Except.error PyErr.typeError
    ∧ (∀ (st : SegState) (c : Option Cell) (rest : List (Option Cell)),
        minuteOf c = Except.error PyErr.valueError
          ∨ minuteOf c = Except.error PyErr.keyError →
        segment st (c :: rest) = (segment st rest).map fun ds => "turning" :: ds) := by
  refine ⟨by rfl, by rfl, ?_⟩
  intro st c rest h
  rw [segment]
  rcases h with h | h <;> rw [h] <;>
    cases hrec : segment st rest <;> simp [Except.map]

/-- Witness for C3's handled cases: an unparsable string row is labeled turning
and the scan continues past it. -/
theorem missing_time_cell_aborts_scan_witness :
    segment segInit [some (Cell.str "garbage"), lowCell] =
      (segment segInit [lowCell]).map fun ds => "turning" :: ds :=
  missing_time_cell_aborts_scan.2.2 segInit (some (Cell.str "garbage")) [lowCell]
    (Or.inl (by rfl))

theorem except_toOption_some {ε α : Type} (e : Except ε α) (v : α)
    (h : e.toOption = some v) : e = Except.ok v := by
  cases e with
  | error e2 => simp [Except.toOption] at h
  | ok a => simp [Except.toOption] at h; rw [h]

theorem except_toOption_none {ε α : Type} (e : Except ε α) :
    e.toOption = none ↔ e.isOk = false := by
  cases e <;> simp [Except.toOption, Except.isOk, Except.toBool]

/-- The dir column of each row survives the Sanitizer unchanged. -/
theorem sanitize_dirmap (rs : List SRow) :
    (sanitize rs).map SRow.dir = rs.map SRow.dir := by
  have h := congrArg
    (List.map fun y : Option Cell × String × List (String × Cell) => y.2.1)
    (sanitize_strip rs)
  rw [List.map_map, List.map_map] at h
  exact h

/-- The passthrough content of each row survives the Sanitizer unchanged. -/
theorem sanitize_keymap (rs : List SRow) :
    (sanitize rs).map keyS = rs.map keyS := by
  have h := congrArg
    (List.map fun y : Option Cell × String × List (String × Cell) => (y.1, y.2.2))
    (sanitize_strip rs)
  rw [List.map_map, List.map_map] at h
  exact h

/-- Shape of any successful split_frames run. -/
theorem split_frames_ok_elim (t : Table) (out : List SRow)
    (h : split_frames t = Except.ok out) :
    ∃ dirs,
      segment segInit (t.rows.map fun cs => colCell t.columns cs "Split (GPS)") =
        Except.ok dirs
      ∧ out = sanitize (((t.rows.zip dirs).filter fun p => p.2 != "turning").map
          fun p => mkSRow t.columns p.1 p.2) := by
  unfold split_frames at h
  split at h
  · exact absurd h (by simp)
  · rename_i dirs hs
    split at h
    · injection h with h
      exact ⟨dirs, hs, h.symm⟩
    · exact absurd h (by simp)

/-- Every row a successful split_frames run emits is labeled up or down. -/
theorem split_frames_dir (t : Table) (out : List SRow)
    (h : split_frames t = Except.ok out) :
    ∀ r ∈ out, r.dir = "up" ∨ r.dir = "down" := by
  obtain ⟨dirs, hs, hout⟩ := split_frames_ok_elim t out h
  intro r hr
  subst hout
  have h1 : r.dir ∈ (sanitize (((t.rows.zip dirs).filter fun p =>
      p.2 != "turning").map fun p => mkSRow t.columns p.1 p.2)).map SRow.dir :=
    List.mem_map_of_mem SRow.dir hr
  rw [sanitize_dirmap, List.map_map] at h1
  obtain ⟨p, hp, hpd⟩ := List.mem_map.mp h1
  have hfil := List.mem_filter.mp hp
  have hzip := List.of_mem_zip hfil.1
  have hlab := (segment_ok_elim _ _ _ hs).2 p.2 hzip.2
  have hdir : r.dir = p.2 := by rw [← hpd]; rfl
  rcases hlab with ht | hu | hd2
  · exfalso
    have hne := hfil.2
    rw [ht] at hne
    simp at hne
  · exact Or.inl (by rw [hdir, hu])
  · exact Or.inr (by rw [hdir, hd2])

/-- Shape of any successful per-file pipeline run. -/
theorem processFile_ok_elim (f : RawFile) (rows : List JRow)
    (h : processFile f = Except.ok rows) :
    ∃ t srows, get_table f.content = Except.ok t
      ∧ split_frames { t with rows := t.rows.drop 1 } = Except.ok srows
      ∧ rows = srows.map fun r => { toSRow := r, file_name := basename f.name } := by
  unfold processFile at h
  split at h
  · exact absurd h (by simp)
  · rename_i t hg
    split at h
    · exact absurd h (by simp)
    · rename_i srows hsf
      injection h with h
      exact ⟨t, srows, hg, hsf, h.symm⟩

/-- Every row a successful per-file run emits is labeled up or down and tagged
with the file's base name. -/
theorem processFile_rows (f : RawFile) (rows : List JRow)
    (h : processFile f = Except.ok rows) :
    ∀ r ∈ rows, (r.dir = "up" ∨ r.dir = "down") ∧ r.file_name = basename f.name := by
  obtain ⟨t, srows, hg, hsf, hrows⟩ := processFile_ok_elim f rows h
  intro r hr
  subst hrows
  obtain ⟨r0, hr0, hre⟩ := List.mem_map.mp hr
  have hd := split_frames_dir _ _ hsf r0 hr0
  subst hre
  exact ⟨hd, rfl⟩

/-- Shape of any successful joiner run. -/
theorem cjd_ok_elim (files : List RawFile) (out : List JRow)
    (h : create_joined_dataset files = Except.ok out) :
    out = (files.filterMap fun f => (processFile f).toOption).flatten := by
  unfold create_joined_dataset at h
  by_cases he : (files.filterMap fun f => (processFile f).toOption).isEmpty = true
  · rw [if_pos he] at h; simp at h
  · rw [if_neg he] at h
    injection h with h
    exact h.symm

/-- C2: every row of the joined dataset is labeled up or down — no turning row
survives to the output — and carries a non-empty session id, the base name of its
originating file (which is non-empty for any openable path). -/
theorem no_turning_in_output (files : List RawFile) (out : List JRow)
    (hnames : ∀ f ∈ files, basename f.name ≠ "")
    (h : create_joined_dataset files = Except.ok out) :
    ∀ r ∈ out, (r.dir = "up" ∨ r.dir = "down") ∧ r.file_name ≠ "" := by
  intro r hr
  rw [cjd_ok_elim files out h] at hr
  obtain ⟨ds, hds, hrds⟩ := List.mem_flatten.mp hr
  obtain ⟨f, hf, hfd⟩ := List.mem_filterMap.mp hds
  have hpf := except_toOption_some _ _ hfd
  have hfacts := processFile_rows f ds hpf r hrds
  refine ⟨hfacts.1, ?_⟩
  rw [hfacts.2]
  exact hnames f hf

/-- Witness for C2 on the two-row sample session. -/
theorem no_turning_in_output_witness :
    (goodRow1.dir = "up" ∨ goodRow1.dir = "down") ∧ goodRow1.file_name ≠ "" :=
  no_turning_in_output [demoGoodFile] [goodRow1, goodRow2]
    (by decide) (by rfl) goodRow1 (by simp)

/-- C6: the joiner raises its terminal error exactly when every input file fails
to process; with one valid file and one file lacking the marker line, the failure
is absorbed and the result is built from the valid file alone. -/
theorem joiner_fails_iff_all_files_fail :
    (∀ files : List RawFile,
        (create_joined_dataset files).isOk = false ↔
          ∀ f ∈ files, (processFile f).isOk = false)
    ∧ (processFile demoGoodFile).isOk = true
    ∧ processFile noMarkerFile = Except.error PyErr.valueError
    ∧ create_joined_dataset [demoGoodFile, noMarkerFile] = processFile demoGoodFile := by
  refine ⟨?_, by rfl, by rfl, by rfl⟩
  intro files
  unfold create_joined_dataset
  by_cases he : (files.filterMap fun f => (processFile f).toOption).isEmpty = true
  · rw [if_pos he]
    rw [List.isEmpty_iff, List.filterMap_eq_nil_iff] at he
    constructor
    · intro _ f hf
      rw [← except_toOption_none]
      exact he f hf
    · intro _
      rfl
  · rw [if_neg he]
    constructor
    · intro hcontra
      exact absurd hcontra (by simp [Except.isOk, Except.toBool])
    · intro hall
      exfalso
      apply he
      rw [List.isEmpty_iff, List.filterMap_eq_nil_iff]
      intro f hf
      rw [except_toOption_none]
      exact hall f hf

/-- Witness for C6 on a batch whose only file fails. -/
theorem joiner_fails_iff_all_files_fail_witness :
    (create_joined_dataset [noMarkerFile]).isOk = false :=
  (joiner_fails_iff_all_files_fail.1 [noMarkerFile]).mpr (by decide)

theorem filterMap_all_ok_nil (files : List RawFile)
    (hall : ∀ f ∈ files, processFile f = Except.ok []) :
    (files.filterMap fun f => (processFile f).toOption) =
      files.map fun _ => [] := by
  induction files with
  | nil => rfl
  | cons a tl ih =>
    rw [List.filterMap_cons, hall a (List.mem_cons_self a tl)]
    simp only [Except.toOption]
    rw [List.map_cons]
    congr 1
    exact ih fun f hf => hall f (List.mem_cons_of_mem a hf)

theorem flatten_map_nil {α β : Type} (l : List α) :
    (l.map fun _ => ([] : List β)).flatten = [] := by
  induction l with
  | nil => rfl
  | cons a tl ih => simp [ih]

/-- C9: a file that parses but whose rows are all dropped still counts as a valid
session: it contributes zero rows; a non-empty batch of such files returns the
empty dataset instead of the terminal error. -/
theorem parsed_but_empty_file_is_valid :
    (∀ files : List RawFile, files ≠ [] →
        (∀ f ∈ files, processFile f = Except.ok []) →
        create_joined_dataset files = Except.ok [])
    ∧ processFile allTurningFile = Except.ok []
    ∧ create_joined_dataset [allTurningFile] = Except.ok [] := by
  refine ⟨?_, by rfl, by rfl⟩
  intro files hne hall
  unfold create_joined_dataset
  rw [filterMap_all_ok_nil files hall]
  have hne2 : ((files.map fun _ => ([] : List JRow)).isEmpty = true) → False := by
    intro hx
    rw [List.isEmpty_iff] at hx
    cases files with
    | nil => exact hne rfl
    | cons a tl => simp at hx
  rw [if_neg hne2, flatten_map_nil]

/-- Witness for C9 on a singleton batch whose file yields zero rows. -/
theorem parsed_but_empty_file_is_valid_witness :
    create_joined_dataset [allTurningFile] = Except.ok [] :=
  parsed_but_empty_file_is_valid.1 [allTurningFile] (by simp) (by
    intro f hf
    rw [List.mem_singleton] at hf
    subst hf
    rfl)

/-- C10: whenever the marker is present but the parsed table lacks any column of
the fixed drop list, get_table raises KeyError; the noPower sample has the marker
and every core column yet fails, and the joiner then skips it, building the batch
from the remaining file alone. -/
theorem column_drop_unconditional :
    (∀ content : String, hasMarker content = true →
        (dropped_columns.all fun c =>
          (read_csv (afterMarker content)).columns.contains c) = false →
        get_table content = Except.error PyErr.keyError)
    ∧ hasMarker noPowerFile.content = true
    ∧ (coreColumns.all fun c =>
        (read_csv (afterMarker noPowerFile.content)).columns.contains c) = true
    ∧ get_table noPowerFile.content = Except.error PyErr.keyError
    ∧ create_joined_dataset [demoGoodFile, noPowerFile] = processFile demoGoodFile := by
  refine ⟨?_, by rfl, by rfl, by rfl, by rfl⟩
  intro content h1 h2
  unfold get_table
  rw [if_pos h1, if_neg ?_]
  intro hx
  rw [h2] at hx
  exact Bool.false_ne_true hx

/-- Witness for C10's general part at the noPower sample. -/
theorem column_drop_unconditional_witness :
    get_table noPowerFile.content = Except.error PyErr.keyError :=
  column_drop_unconditional.1 noPowerFile.content (by rfl) (by rfl)

/-- C8: the joined dataset is exactly the concatenation, in input-file order, of
each successful file's row list, with no re-sorting; every output row's session id
is the base name of its originating file; and within one file the surviving rows'
passthrough content is a subsequence — hence in original relative order — of the
session rows handed to the segmenter. -/
theorem joiner_order_and_tagging :
    (∀ (files : List RawFile) (out : List JRow),
        create_joined_dataset files = Except.ok out →
        out = (files.filterMap fun f => (processFile f).toOption).flatten)
    ∧ (∀ (f : RawFile) (rows : List JRow), processFile f = Except.ok rows →
        ∀ r ∈ rows, r.file_name = basename f.name)
    ∧ (∀ (f : RawFile) (t : Table) (rows : List JRow),
        get_table f.content = Except.ok t → processFile f = Except.ok rows →
        (rows.map keyJ).Sublist ((t.rows.drop 1).map (keyT t.columns))) := by
  refine ⟨cjd_ok_elim, ?_, ?_⟩
  · intro f rows h r hr
    exact (processFile_rows f rows h r hr).2
  · intro f t rows hg h
    obtain ⟨t2, srows, hg2, hsf, hrows⟩ := processFile_ok_elim f rows h
    rw [hg] at hg2
    injection hg2 with hg2
    subst hg2
    obtain ⟨dirs, hs, hout⟩ := split_frames_ok_elim _ _ hsf
    subst hrows
    rw [List.map_map]
    have e1 : srows.map
        (keyJ ∘ fun r => ({ toSRow := r, file_name := basename f.name } : JRow)) =
        srows.map keyS := rfl
    rw [e1, hout, sanitize_keymap, List.map_map]
    have hlen : (t.rows.drop 1).length ≤ dirs.length := by
      have hl := (segment_ok_elim _ _ _ hs).1
      rw [List.length_map] at hl
      exact le_of_eq hl.symm
    have e2 : (((t.rows.drop 1).zip dirs).map fun p => keyT t.columns p.1) =
        (t.rows.drop 1).map (keyT t.columns) := by
      rw [show (fun p : List Cell × String => keyT t.columns p.1) =
        (keyT t.columns ∘ Prod.fst) from rfl]
      rw [← List.map_map, List.map_fst_zip _ _ hlen]
    rw [← e2]
    exact List.Sublist.map _ (List.filter_sublist _)

/-- Witness for C8's tagging part on the two-row sample session. -/
theorem joiner_order_and_tagging_witness :
    goodRow1.file_name = basename demoGoodFile.name :=
  joiner_order_and_tagging.2.1 demoGoodFile [goodRow1, goodRow2] (by rfl) goodRow1
    (by simp)

end RowStats
